import Mathlib

/-!
Verification of the process lifecycle and cancellation coordinator of
`qmi-firmware-update` (src/qmi-firmware-update/qfu-main.c): the event loop,
the cancellation token, the signal-to-cancellation bridge with escalation,
and the log-filtering/formatting gate.

The embedding is shallow: the runtime globals (`loop`, `cancellable`,
`exit_status`) together with the set of registered signal sources and the
lines printed to the error stream form an explicit state record; the C
functions become pure state transformers.  GLib signal sources and
asynchronous completion callbacks are dispatched by `g_main_loop_run`, so a
callback can only execute while the loop is running; the dispatch wrappers
below are gated accordingly, and a `GSourceFunc` returning `FALSE` removes
its source after it fires.
-/

/-- C constant `EXIT_SUCCESS` from stdlib.h. -/
def EXIT_SUCCESS : Nat := 0

/-- C constant `EXIT_FAILURE` from stdlib.h. -/
def EXIT_FAILURE : Nat := 1

/-- POSIX signal number for hangup. -/
def SIGHUP : Nat := 1

/-- POSIX signal number for interrupt. -/
def SIGINT : Nat := 2

/-- POSIX signal number for terminate. -/
def SIGTERM : Nat := 15

/-- GLib log flag `G_LOG_FLAG_FATAL` (1 shifted left by 1). -/
def G_LOG_FLAG_FATAL : Nat := 2

/-- GLib log level `G_LOG_LEVEL_ERROR` (1 shifted left by 2). -/
def G_LOG_LEVEL_ERROR : Nat := 4

/-- GLib log level `G_LOG_LEVEL_CRITICAL` (1 shifted left by 3). -/
def G_LOG_LEVEL_CRITICAL : Nat := 8

/-- GLib log level `G_LOG_LEVEL_WARNING` (1 shifted left by 4). -/
def G_LOG_LEVEL_WARNING : Nat := 16

/-- GLib log level `G_LOG_LEVEL_MESSAGE` (1 shifted left by 5). -/
def G_LOG_LEVEL_MESSAGE : Nat := 32

/-- GLib log level `G_LOG_LEVEL_INFO` (1 shifted left by 6). -/
def G_LOG_LEVEL_INFO : Nat := 64

/-- GLib log level `G_LOG_LEVEL_DEBUG` (1 shifted left by 7). -/
def G_LOG_LEVEL_DEBUG : Nat := 128

/-- The six GLib log severity levels (pure levels, no flag bits). -/
def severity_levels : List Nat :=
  [G_LOG_LEVEL_ERROR, G_LOG_LEVEL_CRITICAL, G_LOG_LEVEL_WARNING,
   G_LOG_LEVEL_MESSAGE, G_LOG_LEVEL_INFO, G_LOG_LEVEL_DEBUG]

/-- The two output streams a log line can be written to. -/
inductive GStream : Type
  | stdout : GStream
  | stderr : GStream
deriving DecidableEq, Repr

/-- Runtime state of the coordinator: the globals `exit_status`,
`cancellable` (its cancelled flag) and `loop` (whether it is running)
from qfu-main.c, plus the multiset of currently registered unix signal
sources (one entry per `g_unix_signal_add`, identified by signal number)
and the lines printed to the error stream by `g_printerr`. -/
structure MainState : Type where
  exitStatus : Nat
  cancelled : Bool
  loopRunning : Bool
  armed : List Nat
  errLines : List String
deriving DecidableEq, Repr

/-- Embeds `g_cancellable_is_cancelled (cancellable)`. -/
def g_cancellable_is_cancelled (s : MainState) : Bool := s.cancelled

/-- Embeds `g_main_loop_is_running (loop)`. -/
def g_main_loop_is_running (s : MainState) : Bool := s.loopRunning

/-- Embeds `signals_handler` from qfu-main.c.  It unconditionally flags a
failed exit, then: if the cancellable is not yet cancelled it prints
"cancelling the operation...", cancels it and re-adds a unix signal source
for the same signal number; otherwise, if the main loop is running, it
prints "cancelling the main loop..." and quits the loop.  The returned
Bool is the `GSourceFunc` return value (`FALSE` in every path). -/
def signals_handler (psignum : Nat) (s : MainState) : MainState × Bool :=
  let s1 : MainState := { s with exitStatus := EXIT_FAILURE }
  if g_cancellable_is_cancelled s1 = false then
    ({ s1 with
        errLines := s1.errLines ++ ["cancelling the operation...\n"],
        cancelled := true,
        armed := s1.armed ++ [psignum] }, false)
  else if g_main_loop_is_running s1 = true then
    ({ s1 with
        errLines := s1.errLines ++ ["cancelling the main loop...\n"],
        loopRunning := false }, false)
  else
    (s1, false)

/-- Delivery of signal `signum` to the process: the handler runs only if
the main loop is dispatching (it is running) and a source for that signal
number is registered; a `FALSE` return removes the dispatched source (the
occurrence that existed before the handler possibly re-added one). -/
def dispatchSignal (signum : Nat) (s : MainState) : MainState :=
  if s.loopRunning && s.armed.contains signum then
    let r := signals_handler signum s
    if r.2 then r.1 else { r.1 with armed := r.1.armed.erase signum }
  else s

/-- Modelled from the spec: the completion callback of the externally-owned
device operation is not under src/; per the spec it "reports completion
(success or failure) and calls the loop's stop entry point, setting
ExitStatus accordingly". -/
def op_complete (success : Bool) (s : MainState) : MainState :=
  { s with
      exitStatus := if success then EXIT_SUCCESS else EXIT_FAILURE,
      loopRunning := false }

/-- An observable event of a run: delivery of an OS signal, or completion
of the device operation. -/
inductive RunEvent : Type
  | sigDeliver (signum : Nat) : RunEvent
  | opComplete (success : Bool) : RunEvent
deriving DecidableEq, Repr

/-- One scheduling step of the single-threaded event loop: callbacks are
serialized through the loop and execute only while it is running. -/
def step (s : MainState) (e : RunEvent) : MainState :=
  match e with
  | RunEvent.sigDeliver n => dispatchSignal n s
  | RunEvent.opComplete ok => if s.loopRunning then op_complete ok s else s

/-- State set up by `main` just before `g_main_loop_run`: a fresh running
main loop, a fresh (uncancelled) cancellable, `exit_status = EXIT_SUCCESS`,
and one unix signal source each for SIGINT, SIGHUP and SIGTERM. -/
def initState : MainState :=
  { exitStatus := EXIT_SUCCESS,
    cancelled := false,
    loopRunning := true,
    armed := [SIGINT, SIGHUP, SIGTERM],
    errLines := [] }

/-- The state after `main` has processed the given sequence of events. -/
def runEvents (es : List RunEvent) : MainState :=
  es.foldl step initState

/-- The value `main` returns (`return (exit_status);`) after the loop has
processed the given events. -/
def main_return (es : List RunEvent) : Nat :=
  (runEvents es).exitStatus

/-- The `strftime` format string used by `log_handler` for the timestamp
prefix: day of month, abbreviated month name, year, hour:minute:second. -/
def strftime_format : String := "%d %b %Y, %H:%M:%S"

/-- Embeds `log_handler` from qfu-main.c.  `none` means the record is
suppressed; `some (stream, line)` means `line` is written to `stream`.
The current local time is outside the embedding, so the already-formatted
timestamp string (the result of `strftime` with `strftime_format`) is a
parameter.  The switch on `log_level` compares against exact constant
values, with CRITICAL, FATAL and ERROR falling through to one case. -/
def log_handler (silent_flag verbose_flag : Bool) (log_level : Nat)
    (time_str message : String) : Option (GStream × String) :=
  if silent_flag then none
  else
    let p : String × Bool :=
      if log_level = G_LOG_LEVEL_WARNING then ("-Warning **", true)
      else if log_level = G_LOG_LEVEL_CRITICAL then ("-Error **", true)
      else if log_level = G_LOG_FLAG_FATAL then ("-Error **", true)
      else if log_level = G_LOG_LEVEL_ERROR then ("-Error **", true)
      else if log_level = G_LOG_LEVEL_DEBUG then ("[Debug]", false)
      else ("", false)
    if !verbose_flag && !p.2 then none
    else
      some (if p.2 then GStream.stderr else GStream.stdout,
            "[" ++ time_str ++ "] " ++ p.1 ++ " " ++ message ++ "\n")

/-- The severity tag as the claim states it: `-Warning **` for warning,
`-Error **` for critical, fatal or error, `[Debug]` for debug, empty
otherwise. -/
def claimed_severity_tag (l : Nat) : String :=
  if l = G_LOG_LEVEL_WARNING then "-Warning **"
  else if l = G_LOG_LEVEL_CRITICAL ∨ l = G_LOG_FLAG_FATAL ∨ l = G_LOG_LEVEL_ERROR then
    "-Error **"
  else if l = G_LOG_LEVEL_DEBUG then "[Debug]"
  else ""

/-- A record counts as error-like exactly when it carries one of the
severities the gate tags with `-Warning **` or `-Error **` (warning,
critical, fatal, error). -/
def claimed_error_like (l : Nat) : Bool :=
  l == G_LOG_LEVEL_WARNING || l == G_LOG_LEVEL_CRITICAL ||
  l == G_LOG_FLAG_FATAL || l == G_LOG_LEVEL_ERROR

/-- Branch characterization of `signals_handler` when the cancellable is
not yet cancelled. -/
theorem signals_handler_not_cancelled (n : Nat) (s : MainState)
    (h : s.cancelled = false) :
    signals_handler n s =
      ({ s with exitStatus := EXIT_FAILURE,
                errLines := s.errLines ++ ["cancelling the operation...\n"],
                cancelled := true,
                armed := s.armed ++ [n] }, false) := by
  simp [signals_handler, g_cancellable_is_cancelled, h]

/-- Branch characterization of `signals_handler` when the cancellable is
already cancelled and the loop is running. -/
theorem signals_handler_cancelled_running (n : Nat) (s : MainState)
    (hc : s.cancelled = true) (hr : s.loopRunning = true) :
    signals_handler n s =
      ({ s with exitStatus := EXIT_FAILURE,
                errLines := s.errLines ++ ["cancelling the main loop...\n"],
                loopRunning := false }, false) := by
  simp [signals_handler, g_cancellable_is_cancelled, g_main_loop_is_running, hc, hr]

/-- Branch characterization of `signals_handler` when the cancellable is
already cancelled and the loop is not running. -/
theorem signals_handler_cancelled_stopped (n : Nat) (s : MainState)
    (hc : s.cancelled = true) (hr : s.loopRunning = false) :
    signals_handler n s = ({ s with exitStatus := EXIT_FAILURE }, false) := by
  simp [signals_handler, g_cancellable_is_cancelled, g_main_loop_is_running, hc, hr]

/-- Once the loop has stopped, no callback is dispatched: a step is the
identity on the state. -/
theorem step_of_stopped (s : MainState) (e : RunEvent)
    (h : s.loopRunning = false) : step s e = s := by
  cases e with
  | sigDeliver n => simp [step, dispatchSignal, h]
  | opComplete ok => simp [step, h]

/-- A step never resets the cancelled flag. -/
theorem step_cancelled_mono (s : MainState) (e : RunEvent)
    (h : s.cancelled = true) : (step s e).cancelled = true := by
  cases e with
  | sigDeliver n =>
    simp only [step, dispatchSignal]
    split
    · rcases hr : s.loopRunning with _ | _
      · rw [signals_handler_cancelled_stopped n s h hr]
        simp [h]
      · rw [signals_handler_cancelled_running n s h hr]
        simp [h]
    · exact h
  | opComplete ok =>
    simp only [step]
    split
    · exact h
    · exact h

/-- Folding steps over any event list never resets the cancelled flag. -/
theorem foldl_cancelled_mono (es : List RunEvent) (s : MainState)
    (h : s.cancelled = true) : (es.foldl step s).cancelled = true := by
  induction es generalizing s with
  | nil => exact h
  | cons e es ih => exact ih (step s e) (step_cancelled_mono s e h)

/-- The exit status only ever holds EXIT_SUCCESS or EXIT_FAILURE. -/
theorem step_exitStatus_cases (s : MainState) (e : RunEvent)
    (h : s.exitStatus = EXIT_SUCCESS ∨ s.exitStatus = EXIT_FAILURE) :
    (step s e).exitStatus = EXIT_SUCCESS ∨ (step s e).exitStatus = EXIT_FAILURE := by
  cases e with
  | sigDeliver n =>
    simp only [step, dispatchSignal]
    split
    · rcases hc : s.cancelled with _ | _
      · rw [signals_handler_not_cancelled n s hc]
        exact Or.inr rfl
      · rcases hr : s.loopRunning with _ | _
        · rw [signals_handler_cancelled_stopped n s hc hr]
          exact Or.inr rfl
        · rw [signals_handler_cancelled_running n s hc hr]
          exact Or.inr rfl
    · exact h
  | opComplete ok =>
    simp only [step]
    split
    · cases ok
      · exact Or.inr rfl
      · exact Or.inl rfl
    · exact h

/-- Fold version of `step_exitStatus_cases`. -/
theorem foldl_exitStatus_cases (es : List RunEvent) (s : MainState)
    (h : s.exitStatus = EXIT_SUCCESS ∨ s.exitStatus = EXIT_FAILURE) :
    (es.foldl step s).exitStatus = EXIT_SUCCESS ∨
      (es.foldl step s).exitStatus = EXIT_FAILURE := by
  induction es generalizing s with
  | nil => exact h
  | cons e es ih => exact ih (step s e) (step_exitStatus_cases s e h)

/-- If every event is a successful completion, the exit status stays
EXIT_SUCCESS. -/
theorem foldl_success (es : List RunEvent) (s : MainState)
    (hes : ∀ e ∈ es, e = RunEvent.opComplete true)
    (h : s.exitStatus = EXIT_SUCCESS) :
    (es.foldl step s).exitStatus = EXIT_SUCCESS := by
  induction es generalizing s with
  | nil => exact h
  | cons e es ih =>
    have he : e = RunEvent.opComplete true := hes e (List.mem_cons_self e es)
    subst he
    refine ih (step s (RunEvent.opComplete true))
      (fun e h' => hes e (List.mem_cons_of_mem _ h')) ?_
    simp only [step]
    split
    · rfl
    · exact h

/-- Erasing an element never raises the count of any element. -/
theorem count_erase_le (l : List Nat) (a k : Nat) :
    (l.erase k).count a ≤ l.count a := by
  rcases eq_or_ne a k with h | h
  · subst h
    rw [List.count_erase_self]
    exact Nat.sub_le _ _
  · rw [List.count_erase_of_ne h]

/-- Appending one source for `k` and then erasing one source for `k`
leaves every count unchanged. -/
theorem count_append_singleton_erase (l : List Nat) (a k : Nat) :
    ((l ++ [k]).erase k).count a = l.count a := by
  rcases eq_or_ne a k with h | h
  · subst h
    rw [List.count_erase_self, List.count_append]
    simp
  · rw [List.count_erase_of_ne h, List.count_append]
    simp [List.count_singleton, h]

/-- A step keeps at most one registered source per signal number. -/
theorem step_count_le (s : MainState) (e : RunEvent)
    (h : ∀ m, s.armed.count m ≤ 1) :
    ∀ m, (step s e).armed.count m ≤ 1 := by
  intro m
  cases e with
  | sigDeliver n =>
    simp only [step, dispatchSignal]
    split
    · rcases hc : s.cancelled with _ | _
      · rw [signals_handler_not_cancelled n s hc]
        simpa [count_append_singleton_erase] using h m
      · rcases hr : s.loopRunning with _ | _
        · rw [signals_handler_cancelled_stopped n s hc hr]
          exact Nat.le_trans (count_erase_le _ _ _) (h m)
        · rw [signals_handler_cancelled_running n s hc hr]
          exact Nat.le_trans (count_erase_le _ _ _) (h m)
    · exact h m
  | opComplete ok =>
    simp only [step]
    split
    · exact h m
    · exact h m

/-- Fold version of `step_count_le`. -/
theorem foldl_count_le (es : List RunEvent) (s : MainState)
    (h : ∀ m, s.armed.count m ≤ 1) :
    ∀ m, ((es.foldl step s).armed.count m ≤ 1) := by
  induction es generalizing s with
  | nil => exact h
  | cons e es ih => exact ih (step s e) (step_count_le s e h)

/-- Every reachable state has at most one registered source per signal
number. -/
theorem runEvents_count_le (es : List RunEvent) (m : Nat) :
    (runEvents es).armed.count m ≤ 1 := by
  refine foldl_count_le es initState (fun k => ?_) m
  have : initState.armed.Nodup := by decide
  exact List.nodup_iff_count_le_one.mp this k

/-- C1: once the loop has stopped (LoopState = Stopped), ExitStatus is
never subsequently mutated — no callback (in particular the signal
handler) is dispatched by the stopped loop, so any step leaves
`exitStatus` unchanged. -/
theorem C1_exitStatus_frozen_after_stop (s : MainState) (e : RunEvent)
    (h : s.loopRunning = false) :
    (step s e).exitStatus = s.exitStatus := by
  rw [step_of_stopped s e h]

/-- Witness for C1 at the concrete state reached by SIGINT then SIGTERM
(loop stopped), stepped with a further SIGINT delivery. -/
theorem C1_witness :
    (runEvents [RunEvent.sigDeliver SIGINT, RunEvent.sigDeliver SIGTERM]).loopRunning = false ∧
    (step (runEvents [RunEvent.sigDeliver SIGINT, RunEvent.sigDeliver SIGTERM])
        (RunEvent.sigDeliver SIGINT)).exitStatus =
      (runEvents [RunEvent.sigDeliver SIGINT, RunEvent.sigDeliver SIGTERM]).exitStatus :=
  ⟨by decide, C1_exitStatus_frozen_after_stop _ _ (by decide)⟩

/-- C2: a monitored signal delivered while the cancellable is not yet
cancelled sets ExitStatus to failure, prints exactly one diagnostic line
to the error stream, cancels the token, leaves the signal re-armed (a
source for the same signal number is still registered, with unchanged
count), and returns with the loop still running. -/
theorem C2_first_signal_requests_cancel (n : Nat) (s : MainState)
    (hc : s.cancelled = false) (hr : s.loopRunning = true) (hm : n ∈ s.armed) :
    (dispatchSignal n s).exitStatus = EXIT_FAILURE ∧
    (dispatchSignal n s).errLines = s.errLines ++ ["cancelling the operation...\n"] ∧
    (dispatchSignal n s).cancelled = true ∧
    (dispatchSignal n s).armed.count n = s.armed.count n ∧
    n ∈ (dispatchSignal n s).armed ∧
    (dispatchSignal n s).loopRunning = true := by
  have hcd : (s.loopRunning && s.armed.contains n) = true := by simp [hr, hm]
  have hd : dispatchSignal n s =
      { s with
          exitStatus := EXIT_FAILURE,
          errLines := s.errLines ++ ["cancelling the operation...\n"],
          cancelled := true,
          armed := (s.armed ++ [n]).erase n } := by
    simp only [dispatchSignal, hcd, if_true]
    rw [signals_handler_not_cancelled n s hc]
    rfl
  rw [hd]
  refine ⟨rfl, rfl, rfl, count_append_singleton_erase s.armed n n, ?_, hr⟩
  have hpos : 0 < ((s.armed ++ [n]).erase n).count n := by
    rw [count_append_singleton_erase s.armed n n]
    exact List.count_pos_iff.mpr hm
  exact List.count_pos_iff.mp hpos

/-- Witness for C2 at the initial state with a SIGINT delivery. -/
theorem C2_witness :
    (dispatchSignal SIGINT initState).exitStatus = EXIT_FAILURE ∧
    (dispatchSignal SIGINT initState).errLines =
      initState.errLines ++ ["cancelling the operation...\n"] ∧
    (dispatchSignal SIGINT initState).cancelled = true ∧
    (dispatchSignal SIGINT initState).armed.count SIGINT =
      initState.armed.count SIGINT ∧
    SIGINT ∈ (dispatchSignal SIGINT initState).armed ∧
    (dispatchSignal SIGINT initState).loopRunning = true :=
  C2_first_signal_requests_cancel SIGINT initState (by decide) (by decide) (by decide)

/-- C3: a signal handled while the cancellable is already cancelled issues
no further cancellation request (the flag and the registered sources are
untouched); if the loop is running it is stopped in that same invocation
with one diagnostic line; if it is not running, nothing happens beyond the
always-performed failure-status write. -/
theorem C3_second_signal_forces_stop (n : Nat) (s : MainState)
    (h : s.cancelled = true) :
    (signals_handler n s).1.cancelled = s.cancelled ∧
    (signals_handler n s).1.armed = s.armed ∧
    (s.loopRunning = true →
      (signals_handler n s).1.loopRunning = false ∧
      (signals_handler n s).1.errLines =
        s.errLines ++ ["cancelling the main loop...\n"]) ∧
    (s.loopRunning = false →
      (signals_handler n s).1 = { s with exitStatus := EXIT_FAILURE }) := by
  rcases hr : s.loopRunning with _ | _
  · rw [signals_handler_cancelled_stopped n s h hr]
    refine ⟨rfl, rfl, ?_, fun _ => by rw [hr]⟩
    intro hx
    exact nomatch hx
  · rw [signals_handler_cancelled_running n s h hr]
    refine ⟨rfl, rfl, fun _ => ⟨rfl, rfl⟩, ?_⟩
    intro hx
    exact nomatch hx

/-- Witness for C3 at the state reached after one SIGINT (token cancelled,
loop still running), handling a SIGTERM. -/
theorem C3_witness :
    (signals_handler SIGTERM (runEvents [RunEvent.sigDeliver SIGINT])).1.cancelled =
      (runEvents [RunEvent.sigDeliver SIGINT]).cancelled ∧
    (signals_handler SIGTERM (runEvents [RunEvent.sigDeliver SIGINT])).1.armed =
      (runEvents [RunEvent.sigDeliver SIGINT]).armed ∧
    ((runEvents [RunEvent.sigDeliver SIGINT]).loopRunning = true →
      (signals_handler SIGTERM (runEvents [RunEvent.sigDeliver SIGINT])).1.loopRunning = false ∧
      (signals_handler SIGTERM (runEvents [RunEvent.sigDeliver SIGINT])).1.errLines =
        (runEvents [RunEvent.sigDeliver SIGINT]).errLines ++
          ["cancelling the main loop...\n"]) :=
  have h := C3_second_signal_forces_stop SIGTERM
    (runEvents [RunEvent.sigDeliver SIGINT]) (by decide)
  ⟨h.1, h.2.1, h.2.2.1⟩

/-- C4: the cancelled flag is false before any delivery, becomes true
after exactly the first delivered monitored signal, never resets on any
step, and hence stays true for the whole remainder of the run. -/
theorem C4_cancelled_monotone (n : Nat) (es : List RunEvent)
    (hn : n = SIGINT ∨ n = SIGHUP ∨ n = SIGTERM) :
    initState.cancelled = false ∧
    (step initState (RunEvent.sigDeliver n)).cancelled = true ∧
    (∀ (s : MainState) (e : RunEvent), s.cancelled = true →
      (step s e).cancelled = true) ∧
    (runEvents (RunEvent.sigDeliver n :: es)).cancelled = true := by
  have hfirst : (step initState (RunEvent.sigDeliver n)).cancelled = true := by
    rcases hn with hn | hn | hn <;> subst hn <;> decide
  refine ⟨rfl, hfirst, step_cancelled_mono, ?_⟩
  have : runEvents (RunEvent.sigDeliver n :: es) =
      es.foldl step (step initState (RunEvent.sigDeliver n)) := by
    simp [runEvents]
  rw [this]
  exact foldl_cancelled_mono es _ hfirst

/-- Witness for C4 with a first SIGINT followed by an empty remainder. -/
theorem C4_witness :
    initState.cancelled = false ∧
    (step initState (RunEvent.sigDeliver SIGINT)).cancelled = true ∧
    (runEvents [RunEvent.sigDeliver SIGINT]).cancelled = true :=
  have h := C4_cancelled_monotone SIGINT [] (Or.inl rfl)
  ⟨h.1, h.2.1, h.2.2.2⟩

/-- C5: escalation is tracked by one shared state, not per signal type:
after SIGINT the loop is still running, and a subsequent SIGTERM (a
different monitored signal) takes the forced-stop path, leaving the loop
stopped with ExitStatus failure. -/
theorem C5_cross_signal_escalation :
    (runEvents [RunEvent.sigDeliver SIGINT]).loopRunning = true ∧
    (runEvents [RunEvent.sigDeliver SIGINT, RunEvent.sigDeliver SIGTERM]).loopRunning = false ∧
    (runEvents [RunEvent.sigDeliver SIGINT, RunEvent.sigDeliver SIGTERM]).exitStatus =
      EXIT_FAILURE := by
  decide

/-- The severity switch inside `log_handler` computes exactly the claimed
tag and the claimed error-like classification. -/
theorem log_handler_switch_eq (l : Nat) :
    (if l = G_LOG_LEVEL_WARNING then (("-Warning **" : String), true)
     else if l = G_LOG_LEVEL_CRITICAL then ("-Error **", true)
     else if l = G_LOG_FLAG_FATAL then ("-Error **", true)
     else if l = G_LOG_LEVEL_ERROR then ("-Error **", true)
     else if l = G_LOG_LEVEL_DEBUG then ("[Debug]", false)
     else ("", false)) = (claimed_severity_tag l, claimed_error_like l) := by
  unfold claimed_severity_tag claimed_error_like
  split_ifs <;> simp_all

/-- C6: precedence of the log gate — silent suppresses everything;
otherwise verbose lets every severity through; otherwise exactly the
error-like severities (warning, critical, error) among the severity
levels produce output, and message/info/debug produce none. -/
theorem C6_log_gate_precedence (silent verbose : Bool) (level : Nat)
    (ts msg : String) :
    (silent = true → log_handler silent verbose level ts msg = none) ∧
    (silent = false → verbose = true →
      (log_handler silent verbose level ts msg).isSome = true) ∧
    (silent = false → verbose = false → level ∈ severity_levels →
      ((log_handler silent verbose level ts msg).isSome = true ↔
        (level = G_LOG_LEVEL_WARNING ∨ level = G_LOG_LEVEL_CRITICAL ∨
          level = G_LOG_LEVEL_ERROR))) := by
  refine ⟨?_, ?_, ?_⟩
  · intro h
    subst h
    simp [log_handler]
  · intro h1 h2
    subst h1
    subst h2
    simp only [log_handler]
    split_ifs <;> simp_all
  · intro h1 h2 hmem
    subst h1
    subst h2
    fin_cases hmem <;>
      simp [log_handler, G_LOG_LEVEL_WARNING, G_LOG_LEVEL_CRITICAL,
        G_LOG_FLAG_FATAL, G_LOG_LEVEL_ERROR, G_LOG_LEVEL_MESSAGE,
        G_LOG_LEVEL_INFO, G_LOG_LEVEL_DEBUG]

/-- Witness for C6: silent suppresses an error record; verbose lets a
debug record through; default mode suppresses an informational record. -/
theorem C6_witness :
    log_handler true false G_LOG_LEVEL_ERROR "t" "m" = none ∧
    (log_handler false true G_LOG_LEVEL_DEBUG "t" "m").isSome = true ∧
    ((log_handler false false G_LOG_LEVEL_INFO "t" "m").isSome = true ↔
      (G_LOG_LEVEL_INFO = G_LOG_LEVEL_WARNING ∨
        G_LOG_LEVEL_INFO = G_LOG_LEVEL_CRITICAL ∨
        G_LOG_LEVEL_INFO = G_LOG_LEVEL_ERROR)) :=
  ⟨(C6_log_gate_precedence true false G_LOG_LEVEL_ERROR "t" "m").1 rfl,
   (C6_log_gate_precedence false true G_LOG_LEVEL_DEBUG "t" "m").2.1 rfl rfl,
   (C6_log_gate_precedence false false G_LOG_LEVEL_INFO "t" "m").2.2 rfl rfl
     (by decide)⟩

/-- C7: every emitted line is the timestamp prefix followed by the
severity tag of the record (warning, critical/fatal/error, debug, or
empty) and the message; it goes to the error stream exactly when the
record is error-like, to standard output otherwise; and the timestamp is
formatted with day, abbreviated month name, year, hour:minute:second. -/
theorem C7_log_format_and_routing (silent verbose : Bool) (level : Nat)
    (ts msg : String) (stream : GStream) (line : String)
    (h : log_handler silent verbose level ts msg = some (stream, line)) :
    line = "[" ++ ts ++ "] " ++ claimed_severity_tag level ++ " " ++ msg ++ "\n" ∧
    (stream = GStream.stderr ↔ claimed_error_like level = true) ∧
    strftime_format = "%d %b %Y, %H:%M:%S" := by
  rcases hs : silent with _ | _
  · subst hs
    rw [log_handler] at h
    simp only [Bool.false_eq_true, if_false, log_handler_switch_eq] at h
    by_cases hcond : (!verbose && !claimed_error_like level) = true
    · rw [if_pos hcond] at h
      exact absurd h (by simp)
    · rw [if_neg hcond] at h
      rw [Option.some_inj] at h
      simp only [Prod.mk.injEq] at h
      obtain ⟨hstream, hline⟩ := h
      refine ⟨hline.symm, ?_, rfl⟩
      rw [← hstream]
      rcases he : claimed_error_like level with _ | _ <;> simp [he]
  · subst hs
    rw [log_handler] at h
    simp at h

/-- Witness for C7 at a concrete warning record emitted in default mode. -/
theorem C7_witness :
    "[t] -Warning ** m\n" =
      "[" ++ "t" ++ "] " ++ claimed_severity_tag G_LOG_LEVEL_WARNING ++ " " ++ "m" ++ "\n" ∧
    (GStream.stderr = GStream.stderr ↔
      claimed_error_like G_LOG_LEVEL_WARNING = true) ∧
    strftime_format = "%d %b %Y, %H:%M:%S" :=
  C7_log_format_and_routing false false G_LOG_LEVEL_WARNING "t" "m"
    GStream.stderr "[t] -Warning ** m\n" (by decide)

/-- C8: the run starts with the loop Running and ExitStatus pre-set to
success; the process exit code is the ExitStatus value held when the loop
stops — always success (0) or failure (1, non-zero) — and a run in which
only successful completion events occur (no signal, nothing setting
failure) exits with code 0. -/
theorem C8_exit_code_reflects_status (es : List RunEvent)
    (h : ∀ e ∈ es, e = RunEvent.opComplete true) :
    initState.loopRunning = true ∧
    initState.exitStatus = EXIT_SUCCESS ∧
    EXIT_SUCCESS = 0 ∧
    EXIT_FAILURE ≠ 0 ∧
    (∀ es2 : List RunEvent, main_return es2 = (runEvents es2).exitStatus) ∧
    (∀ es2 : List RunEvent,
      (runEvents es2).exitStatus = EXIT_SUCCESS ∨
        (runEvents es2).exitStatus = EXIT_FAILURE) ∧
    main_return es = 0 := by
  refine ⟨rfl, rfl, rfl, by decide, fun _ => rfl, ?_, ?_⟩
  · intro es2
    exact foldl_exitStatus_cases es2 initState (Or.inl rfl)
  · exact foldl_success es initState h rfl

/-- Witness for C8 on the run whose only event is a successful
completion. -/
theorem C8_witness :
    initState.loopRunning = true ∧
    initState.exitStatus = EXIT_SUCCESS ∧
    EXIT_SUCCESS = 0 ∧
    EXIT_FAILURE ≠ 0 ∧
    main_return [RunEvent.opComplete true] = 0 :=
  have h := C8_exit_code_reflects_status [RunEvent.opComplete true]
    (by intro e he; simp at he; exact he)
  ⟨h.1, h.2.1, h.2.2.1, h.2.2.2.1, h.2.2.2.2.2.2⟩

/-- C9: the handler always returns FALSE (so the fired source is removed)
and only the first-request branch re-registers; hence in any reachable
state with the token already cancelled, a dispatched signal leaves no
source registered for that signal type, and a further delivery of the
same signal is no longer intercepted (the state is unchanged). -/
theorem C9_no_source_after_forced_stop (es : List RunEvent) (n : Nat)
    (hc : (runEvents es).cancelled = true)
    (hr : (runEvents es).loopRunning = true)
    (hm : n ∈ (runEvents es).armed) :
    (∀ (m : Nat) (t : MainState), (signals_handler m t).2 = false) ∧
    (dispatchSignal n (runEvents es)).armed.count n = 0 ∧
    dispatchSignal n (dispatchSignal n (runEvents es)) =
      dispatchSignal n (runEvents es) := by
  have hret : ∀ (m : Nat) (t : MainState), (signals_handler m t).2 = false := by
    intro m t
    rcases htc : t.cancelled with _ | _
    · rw [signals_handler_not_cancelled m t htc]
    · rcases htr : t.loopRunning with _ | _
      · rw [signals_handler_cancelled_stopped m t htc htr]
      · rw [signals_handler_cancelled_running m t htc htr]
  have hcd : ((runEvents es).loopRunning && (runEvents es).armed.contains n) = true := by
    simp [hr, hm]
  have hd : dispatchSignal n (runEvents es) =
      { runEvents es with
          exitStatus := EXIT_FAILURE,
          errLines := (runEvents es).errLines ++ ["cancelling the main loop...\n"],
          loopRunning := false,
          armed := (runEvents es).armed.erase n } := by
    simp only [dispatchSignal, hcd, if_true]
    rw [signals_handler_cancelled_running n _ hc hr]
    rfl
  have hle : (runEvents es).armed.count n ≤ 1 := runEvents_count_le es n
  have hpos : 0 < (runEvents es).armed.count n := List.count_pos_iff.mpr hm
  refine ⟨hret, ?_, ?_⟩
  · rw [hd]
    show ((runEvents es).armed.erase n).count n = 0
    rw [List.count_erase_self]
    omega
  · rw [hd]
    simp [dispatchSignal]

/-- Witness for C9: after one SIGINT the token is cancelled and the loop
runs; dispatching SIGTERM disarms SIGTERM entirely and a further SIGTERM
is not intercepted. -/
theorem C9_witness :
    (dispatchSignal SIGTERM (runEvents [RunEvent.sigDeliver SIGINT])).armed.count SIGTERM = 0 ∧
    dispatchSignal SIGTERM (dispatchSignal SIGTERM (runEvents [RunEvent.sigDeliver SIGINT])) =
      dispatchSignal SIGTERM (runEvents [RunEvent.sigDeliver SIGINT]) :=
  (C9_no_source_after_forced_stop [RunEvent.sigDeliver SIGINT] SIGTERM
    (by decide) (by decide) (by decide)).2

/-- C10: a log-level value that matches none of the exact case constants
(in particular a value combining several bits, such as error with the
fatal flag also set) falls into the default branch: empty severity tag,
routed to standard output, suppressed unless verbose is set. -/
theorem C10_combined_bits_treated_informational (level : Nat)
    (ts msg : String)
    (h : level ≠ G_LOG_LEVEL_WARNING ∧ level ≠ G_LOG_LEVEL_CRITICAL ∧
      level ≠ G_LOG_FLAG_FATAL ∧ level ≠ G_LOG_LEVEL_ERROR ∧
      level ≠ G_LOG_LEVEL_DEBUG) :
    log_handler false false level ts msg = none ∧
    log_handler false true level ts msg =
      some (GStream.stdout, "[" ++ ts ++ "] " ++ "" ++ " " ++ msg ++ "\n") := by
  obtain ⟨h1, h2, h3, h4, h5⟩ := h
  constructor
  · simp [log_handler, h1, h2, h3, h4, h5]
  · simp [log_handler, h1, h2, h3, h4, h5]

/-- Witness for C10 at log level 6, the bitwise combination of the error
level with the fatal flag. -/
theorem C10_witness :
    Nat.lor G_LOG_LEVEL_ERROR G_LOG_FLAG_FATAL = 6 ∧
    log_handler false false 6 "t" "m" = none ∧
    log_handler false true 6 "t" "m" =
      some (GStream.stdout, "[" ++ "t" ++ "] " ++ "" ++ " " ++ "m" ++ "\n") :=
  ⟨by decide,
   (C10_combined_bits_treated_informational 6 "t" "m" (by decide)).1,
   (C10_combined_bits_treated_informational 6 "t" "m" (by decide)).2⟩
